import Mathlib

/-!
# Verification of the runpod Go client library

This development shallowly embeds the core of the `runpod` Go client library
(request pipeline, error taxonomy, validation helpers, job polling and the
streaming engine) in Lean and proves the specification's claims about it.

Conventions of the embedding:

* Go strings are modelled as Lean `String` values; byte-level operations of
  the `strings` package are modelled on the character list `String.data`
  (the two agree on ASCII data, which is all the library manipulates).
* `time.Duration` values are modelled as `Int` counts of seconds
  (`time.Second = 1`, `time.Minute = 60`), which is the granularity the
  verified code actually uses (5 s polls, 30 s timeouts, 10 min deadlines).
* Go `int` is modelled as `Int`.
* Fallible calls return `Except GoErr α`; the ambient network is passed in
  explicitly as a function argument, so "makes no network call" is expressed
  as independence from that argument.
* Each retry/polling loop is written with an explicit fuel argument chosen
  large enough that the fuel never runs out before the loop's own exit
  condition; the fuel-exhaustion branch coincides with the loop's normal
  fall-through result.
-/

namespace Runpod

/-! ## Go `strings` package primitives used by the client -/

/-- `strings.HasPrefix s pre` from the Go standard library. -/
def goStartsWith (s pre : String) : Bool :=
  pre.data.isPrefixOf s.data

/-- Helper for `goContains`: does `needle` occur as a contiguous run of `hay`? -/
def goContainsList (needle : List Char) : List Char → Bool
  | [] => needle.isEmpty
  | c :: rest => needle.isPrefixOf (c :: rest) || goContainsList needle rest

/-- `strings.Contains s sub` from the Go standard library. -/
def goContains (s sub : String) : Bool :=
  goContainsList sub.data s.data

/-! ## Client configuration (`client.go`)

The `Client` struct.  `HTTPClient` is modelled by the only field the library
reads or writes on it, its timeout; the `Logger` field only produces debug
output and is omitted. -/

/-- `DefaultBaseURL`: the default RunPod REST API base URL. -/
def DefaultBaseURL : String := "https://rest.runpod.io/v1"

/-- `DefaultServerlessBaseURL`: the base URL for serverless operations. -/
def DefaultServerlessBaseURL : String := "https://api.runpod.ai/v2"

/-- `DefaultTimeout = 30 * time.Second`, in seconds. -/
def DefaultTimeout : Int := 30

/-- `DefaultUserAgent`: the default user agent string. -/
def DefaultUserAgent : String := "runpod-go/1.0.0"

/-- `MaxRetryAttempts`: maximum number of retry attempts for failed requests. -/
def MaxRetryAttemptsDefault : Int := 3

/-- `RetryDelay = 1 * time.Second`, in seconds. -/
def RetryDelayDefault : Int := 1

/-- The `Client` struct of the Go library. -/
structure Client where
  APIKey : String
  BaseURL : String
  ServerlessBaseURL : String
  /-- `HTTPClient.Timeout`, in seconds. -/
  httpTimeout : Int
  UserAgent : String
  Debug : Bool
  MaxRetryAttempts : Int
  RetryDelay : Int
deriving Repr, DecidableEq

/-- The client populated with the defaults that `NewClient` installs before
applying the caller's options. -/
def defaultsClient (apiKey : String) : Client :=
  { APIKey := apiKey
    BaseURL := DefaultBaseURL
    ServerlessBaseURL := DefaultServerlessBaseURL
    httpTimeout := DefaultTimeout
    UserAgent := DefaultUserAgent
    Debug := false
    MaxRetryAttempts := MaxRetryAttemptsDefault
    RetryDelay := RetryDelayDefault }

/-- `ClientOption`: a function configuring the client. -/
def ClientOption := Client → Client

/-- `WithBaseURL`. -/
def WithBaseURL (baseURL : String) : ClientOption :=
  fun c => { c with BaseURL := baseURL }

/-- `WithServerlessBaseURL`. -/
def WithServerlessBaseURL (baseURL : String) : ClientOption :=
  fun c => { c with ServerlessBaseURL := baseURL }

/-- `WithTimeout` (sets `HTTPClient.Timeout`). -/
def WithTimeout (timeout : Int) : ClientOption :=
  fun c => { c with httpTimeout := timeout }

/-- `WithDebug`. -/
def WithDebug (debug : Bool) : ClientOption :=
  fun c => { c with Debug := debug }

/-- `WithUserAgent`. -/
def WithUserAgent (userAgent : String) : ClientOption :=
  fun c => { c with UserAgent := userAgent }

/-- `WithMaxRetryAttempts`. -/
def WithMaxRetryAttempts (maxAttempts : Int) : ClientOption :=
  fun c => { c with MaxRetryAttempts := maxAttempts }

/-- `WithRetryDelay`. -/
def WithRetryDelay (delay : Int) : ClientOption :=
  fun c => { c with RetryDelay := delay }

/-- `NewClient` panics when the API key is empty (modelled as `none`),
otherwise installs the defaults and applies all options in order. -/
def NewClient (apiKey : String) (opts : List ClientOption) : Option Client :=
  if apiKey = "" then
    none
  else
    some (opts.foldl (fun c opt => opt c) (defaultsClient apiKey))

/-! ## URL composition (`client.go`, `buildURL`) -/

/-- `buildURL`: if the endpoint starts with `/v2/` or contains
`api.runpod.ai`, it is a serverless endpoint (routed to the serverless base,
or taken verbatim as a full URL); otherwise it is a standard REST endpoint. -/
def buildURL (c : Client) (endpoint : String) : String :=
  if goStartsWith endpoint "/v2/" || goContains endpoint "api.runpod.ai" then
    if goStartsWith endpoint "/v2/" then
      c.ServerlessBaseURL ++ endpoint
    else
      endpoint
  else
    c.BaseURL ++ endpoint

/-! ## Error taxonomy (`errors.go`)

Each Go error struct becomes one constructor of `GoErr`.  Errors built with
`fmt.Errorf` are kept structurally: the constructor records the data
interpolated into the format string (and, for `%w`, the wrapped cause). -/

/-- The `APIError` struct (`StatusCode` is overwritten by the pipeline after
a successful JSON parse). -/
structure APIErrorData where
  StatusCode : Int := 0
  Message : String := ""
  Details : String := ""
  Code : String := ""
  RequestID : String := ""
deriving Repr, DecidableEq

/-- The value carried by `NewValidationErrorWithValue` (an `int` or a
`float64`; `float64` is modelled as `Rat`, faithful for the order
comparisons the library performs). -/
inductive ValidationValue where
  | vInt (i : Int)
  | vFloat (q : Rat)
deriving Repr, DecidableEq

/-- The closed union of the library's error values. -/
inductive GoErr where
  /-- `APIError`. -/
  | api (e : APIErrorData)
  /-- `ValidationError`. -/
  | validation (field message : String) (value : Option ValidationValue)
  /-- `NetworkError` (the underlying transport cause is opaque text). -/
  | network (message : String) (cause : Option String)
  /-- `TimeoutError`. -/
  | timeout (operation duration : String)
  /-- `AuthError`. -/
  | auth (message : String)
  /-- `RateLimitError` (only the fields `NewRateLimitError` sets). -/
  | rateLimit (message retryAfter : String)
  /-- `fmt.Errorf("HTTP %d: retryable server error", status)`. -/
  | httpRetryable (status : Int)
  /-- `fmt.Errorf("request failed after %d attempts: %w", attempts, lastErr)`. -/
  | exhausted (attempts : Int) (lastErr : Option GoErr)
  /-- A façade wrap `fmt.Errorf("...: %w", cause)`. -/
  | wrapped (message : String) (cause : GoErr)
  /-- `fmt.Errorf("job %s failed: %s", jobID, job.Error)`. -/
  | jobFailed (jobID errText : String)
  /-- `fmt.Errorf("job %s was cancelled", jobID)`. -/
  | jobCancelled (jobID : String)
  /-- `fmt.Errorf("job %s timed out", jobID)`. -/
  | jobTimedOut (jobID : String)
  /-- `fmt.Errorf("job %s did not complete within %v", jobID, maxWaitTime)`. -/
  | waitDeadline (jobID : String) (maxWait : Int)
  /-- `fmt.Errorf("failed to submit %d out of %d jobs: %v", failed, total, errs)`. -/
  | batchSubmit (failed total : Nat) (errs : List GoErr)

/-- `isRetryableError`: network and timeout errors are always retryable, an
`APIError` is retryable iff `IsServerError` (5xx); everything else is not. -/
def isRetryableError : GoErr → Bool
  | .network _ _ => true
  | .timeout _ _ => true
  | .api e => decide (500 ≤ e.StatusCode) && decide (e.StatusCode < 600)
  | _ => false

/-- `isRetryableHTTPStatus`: 5xx gateway/server statuses and 429. -/
def isRetryableHTTPStatus (statusCode : Int) : Bool :=
  statusCode == 500 || statusCode == 502 || statusCode == 503 ||
    statusCode == 504 || statusCode == 429

/-! ## HTTP responses and the body as seen by `encoding/json`

`handleResponse` reads the whole body and, on `statusCode >= 400`, hands it
to `parseErrorResponse`, which probes it with two `json.Unmarshal` calls.
The body is modelled by the outcomes of those two probes plus its raw text:
`apiErrParse` is `some e` exactly when unmarshalling into `APIError`
succeeds yielding fields `e`, and `simpleParse` is `some (err, msg)`
exactly when unmarshalling into the anonymous `{error, message}` struct
succeeds. -/

structure BodyParse where
  raw : String
  apiErrParse : Option APIErrorData
  simpleParse : Option (String × String)
deriving Repr, DecidableEq

/-- An `*http.Response` as consumed by the pipeline. -/
structure HTTPResponse where
  statusCode : Int
  headers : List (String × String) := []
  body : BodyParse := { raw := "", apiErrParse := none, simpleParse := none }
deriving Repr, DecidableEq

/-! ## Request execution with retry (`client.go`, `makeRequest`)

The network is abstracted as `outcomes : Int → Except GoErr HTTPResponse`,
giving for each attempt number the result `doRequest` would produce
(`.error e` is a transport-level failure already wrapped by `doRequest`,
`.ok resp` a transport-level success).  The loop returns the Go result
paired with the number of attempts actually performed (the instrumentation
needed to state the retry-count claims). -/

/-- The body of `makeRequest`'s `for attempt := 0; attempt <= c.MaxRetryAttempts`
loop.  The fuel counts the remaining iterations the guard allows, so the
fuel-exhaustion branch is exactly the loop's fall-through return. -/
def makeRequestLoop (c : Client) (outcomes : Int → Except GoErr HTTPResponse) :
    Nat → Int → Option GoErr → Except GoErr HTTPResponse × Nat
  | 0, _, lastErr => (.error (.exhausted (c.MaxRetryAttempts + 1) lastErr), 0)
  | fuel + 1, attempt, _ =>
    match outcomes attempt with
    | .error e =>
      if isRetryableError e then
        let r := makeRequestLoop c outcomes fuel (attempt + 1) (some e)
        (r.1, r.2 + 1)
      else
        (.error e, 1)
    | .ok resp =>
      if isRetryableHTTPStatus resp.statusCode && decide (attempt < c.MaxRetryAttempts) then
        let r := makeRequestLoop c outcomes fuel (attempt + 1)
          (some (.httpRetryable resp.statusCode))
        (r.1, r.2 + 1)
      else
        (.ok resp, 1)

/-- `makeRequest`: run the retry loop from attempt 0.  The initial fuel
`(MaxRetryAttempts + 1).toNat` is the number of iterations the guard
`attempt <= c.MaxRetryAttempts` admits. -/
def makeRequest (c : Client) (outcomes : Int → Except GoErr HTTPResponse) :
    Except GoErr HTTPResponse :=
  (makeRequestLoop c outcomes (c.MaxRetryAttempts + 1).toNat 0 none).1

/-- The number of `doRequest` calls `makeRequest` performs. -/
def makeRequestAttempts (c : Client) (outcomes : Int → Except GoErr HTTPResponse) :
    Nat :=
  (makeRequestLoop c outcomes (c.MaxRetryAttempts + 1).toNat 0 none).2

/-! ## Response decoding (`client.go`, `handleResponse` / `parseErrorResponse`) -/

/-- `getResponseHeader`: the Go helper is an explicit stub ("will be
implemented later") with no access to the response; it always returns the
empty string. -/
def getResponseHeader (_c : Client) (_key : String) : String := ""

/-- `parseErrorResponse`: classify an error-response body into one typed
error, by precedence: a structured `APIError` body with non-empty message,
then a simple `{error|message}` body with non-empty message, then a
status-code fallback. -/
def parseErrorResponse (c : Client) (statusCode : Int) (body : BodyParse) : GoErr :=
  let fallback : GoErr :=
    if statusCode = 401 then .auth "invalid or expired API key"
    else if statusCode = 403 then .auth "insufficient permissions"
    else if statusCode = 404 then
      .api { StatusCode := 404, Message := "resource not found" }
    else if statusCode = 429 then
      let hdr := getResponseHeader c "Retry-After"
      let retryAfter := if hdr ≠ "" then hdr ++ " seconds" else "unknown"
      .rateLimit "rate limit exceeded" retryAfter
    else if statusCode = 500 ∨ statusCode = 502 ∨ statusCode = 503 ∨ statusCode = 504 then
      .api { StatusCode := statusCode, Message := "server error" }
    else
      .api { StatusCode := statusCode, Message := body.raw }
  let simpleStage : GoErr :=
    match body.simpleParse with
    | some (errField, msgField) =>
      let message := if errField = "" then msgField else errField
      if message ≠ "" then .api { StatusCode := statusCode, Message := message }
      else fallback
    | none => fallback
  match body.apiErrParse with
  | some apiErr =>
    if apiErr.Message ≠ "" then .api { apiErr with StatusCode := statusCode }
    else simpleStage
  | none => simpleStage

/-- `handleResponse`, restricted to its error-classification behaviour: on
`statusCode >= 400` the body is classified by `parseErrorResponse` and an
error is always returned.  (The JSON deserialization of a success body into
the caller's target value is not modelled; no claim concerns it.) -/
def handleResponse (c : Client) (resp : HTTPResponse) : Except GoErr Unit :=
  if 400 ≤ resp.statusCode then
    .error (parseErrorResponse c resp.statusCode resp.body)
  else
    .ok ()

/-! ## Input validation helpers (`client.go`) -/

/-- The `interface{}` argument of `validateRequired`: the call sites pass
nil, a string, or a string slice; any other dynamic type falls through the
type switch and passes. -/
inductive ReqValue where
  | vnil
  | vstr (s : String)
  | vstrList (l : List String)
  | vother
deriving Repr, DecidableEq

/-- `validateRequired`. -/
def validateRequired (fieldName : String) (value : ReqValue) : Option GoErr :=
  match value with
  | .vnil => some (.validation fieldName "is required" none)
  | .vstr s =>
    if s = "" then some (.validation fieldName "cannot be empty" none) else none
  | .vstrList l =>
    if l = [] then some (.validation fieldName "cannot be empty" none) else none
  | .vother => none

/-- `validatePositive`. -/
def validatePositive (fieldName : String) (value : Int) : Option GoErr :=
  if value ≤ 0 then
    some (.validation fieldName "must be positive" (some (.vInt value)))
  else none

/-- `validatePositiveFloat`. -/
def validatePositiveFloat (fieldName : String) (value : Rat) : Option GoErr :=
  if value ≤ 0 then
    some (.validation fieldName "must be positive" (some (.vFloat value)))
  else none

/-! ## API-key masking (`client.go`, `GetAPIKey`) -/

/-- The masking computation of `GetAPIKey`, on the key's character list
(Go slices the key's bytes; on ASCII keys the two coincide). -/
def maskChars (l : List Char) : List Char :=
  if l.length ≤ 8 then ['*', '*', '*']
  else l.take 4 ++ ['*', '*', '*'] ++ l.drop (l.length - 4)

/-- `GetAPIKey`: return the configured API key, masked. -/
def GetAPIKey (c : Client) : String :=
  ⟨maskChars c.APIKey.data⟩

/-! ## Jobs and the polling engine (`jobs.go`)

`Job` keeps exactly the fields the verified operations read: `ID`,
`Status`, `Output` and `Error` (`Output` is `interface{}` in Go; it is
modelled as an opaque optional payload, with `none` for the nil
interface, so `reflect.DeepEqual` becomes equality of `Option String`).
`time.Duration` arguments are in seconds, and the wall clock is modelled
as starting at 0 and advancing by the 5-second sleep after each
non-terminal poll, so the `time.Now().Before(deadline)` guard before the
`k`-th status fetch reads `5 * k < maxWait`. -/

structure Job where
  ID : String := ""
  Status : String := ""
  Output : Option String := none
  Error : String := ""
deriving Repr, DecidableEq

/-- `IsJobTerminal`: membership of the status in the list of terminal
states. -/
def IsJobTerminal (status : String) : Bool :=
  ["COMPLETED", "FAILED", "CANCELLED", "TIMED_OUT"].any (fun t => status == t)

/-- `GetJobStatus`: validate both required ids, then issue the GET against
the composed endpoint path, wrapping any pipeline error.  The network (the
whole `Get` pipeline of request building, retry and decoding) is the
function `net` from the endpoint path to the decoded result; validation
failures return before it is consulted. -/
def GetJobStatus (net : String → Except GoErr Job)
    (endpointID jobID : String) : Except GoErr Job :=
  match validateRequired "endpointID" (.vstr endpointID) with
  | some e => .error e
  | none =>
    match validateRequired "jobID" (.vstr jobID) with
    | some e => .error e
    | none =>
      match net ("/v2/" ++ endpointID ++ "/status/" ++ jobID) with
      | .error e =>
        .error (.wrapped
          ("failed to get status for job " ++ jobID ++ " on endpoint " ++ endpointID) e)
      | .ok job => .ok job

/-- The polling loop of `WaitForJobCompletion`.  `jobs k` is the result of
the `k`-th `GetJobStatus` fetch; the fuel bounds the loop's iterations and
is chosen so that the guard `5 * k < maxWait` always fails first (the
fuel-exhaustion branch coincides with the deadline fall-through).  The
result carries the Go `(job, error)` pair and, as instrumentation, the
number of fetches performed. -/
def waitForJobCompletionLoop (jobs : Nat → Except GoErr Job) (jobID : String)
    (maxWait : Int) : Nat → Nat → (Option Job × Option GoErr) × Nat
  | 0, _ => ((none, some (.waitDeadline jobID maxWait)), 0)
  | fuel + 1, k =>
    if 5 * (k : Int) < maxWait then
      match jobs k with
      | .error e => ((none, some e), 1)
      | .ok job =>
        if job.Status = "COMPLETED" then ((some job, none), 1)
        else if job.Status = "FAILED" then
          ((some job, some (.jobFailed jobID job.Error)), 1)
        else if job.Status = "CANCELLED" then
          ((some job, some (.jobCancelled jobID)), 1)
        else if job.Status = "TIMED_OUT" then
          ((some job, some (.jobTimedOut jobID)), 1)
        else
          let r := waitForJobCompletionLoop jobs jobID maxWait fuel (k + 1)
          (r.1, r.2 + 1)
    else ((none, some (.waitDeadline jobID maxWait)), 0)

/-- `WaitForJobCompletion`: a non-positive wait bound defaults to 10
minutes (600 s), then the polling loop runs against the deadline. -/
def WaitForJobCompletion (jobs : Nat → Except GoErr Job) (jobID : String)
    (maxWaitTime : Int) : Option Job × Option GoErr :=
  let mw := if maxWaitTime ≤ 0 then 600 else maxWaitTime
  (waitForJobCompletionLoop jobs jobID mw (mw.toNat + 1) 0).1

/-- The number of status fetches `WaitForJobCompletion` performs. -/
def waitPollCount (jobs : Nat → Except GoErr Job) (jobID : String)
    (maxWaitTime : Int) : Nat :=
  let mw := if maxWaitTime ≤ 0 then 600 else maxWaitTime
  (waitForJobCompletionLoop jobs jobID mw (mw.toNat + 1) 0).2

/-- The strings `fmt.Errorf` renders for the polling loop's errors (the one
place a claim talks about an error's text rather than its data; the
remaining `GoErr` variants are compared structurally and render as ""
here).  The deadline bound renders with a unit suffix as Go's `%v` on a
`time.Duration` does. -/
def waitErrText : GoErr → String
  | .jobFailed jobID errText => "job " ++ jobID ++ " failed: " ++ errText
  | .jobCancelled jobID => "job " ++ jobID ++ " was cancelled"
  | .jobTimedOut jobID => "job " ++ jobID ++ " timed out"
  | .waitDeadline jobID maxWait =>
    "job " ++ jobID ++ " did not complete within " ++ toString maxWait ++ "s"
  | _ => ""

/-! ## Batch submission (`jobs.go`, `SubmitMultipleJobs`) -/

/-- The submission loop of `SubmitMultipleJobs`: `runAsync i a` is the
result the `RunAsync` call would produce for the `i`-th input `a`.
Successful jobs and per-index wrapped errors accumulate in input order. -/
def submitLoop {α : Type} (runAsync : Nat → α → Except GoErr Job) :
    Nat → List α → List Job × List GoErr
  | _, [] => ([], [])
  | i, a :: rest =>
    match runAsync i a with
    | .error e =>
      let r := submitLoop runAsync (i + 1) rest
      (r.1, .wrapped ("job " ++ toString i ++ " failed") e :: r.2)
    | .ok j =>
      let r := submitLoop runAsync (i + 1) rest
      (j :: r.1, r.2)

/-- `SubmitMultipleJobs`: validate the endpoint id and non-emptiness of the
inputs, submit each input independently in order (a failed submission is
recorded and skipped), and if any submission failed return the successful
jobs together with an error reporting how many of the N submissions
failed. -/
def SubmitMultipleJobs {α : Type} (runAsync : Nat → α → Except GoErr Job)
    (endpointID : String) (inputs : List α) : List Job × Option GoErr :=
  match validateRequired "endpointID" (.vstr endpointID) with
  | some e => ([], some e)
  | none =>
    if inputs.length = 0 then
      ([], some (.validation "inputs" "cannot be empty" none))
    else
      let r := submitLoop runAsync 0 inputs
      if r.2.length > 0 then
        (r.1, some (.batchSubmit r.2.length inputs.length r.2))
      else
        (r.1, none)

/-! ## Streaming engine (`jobs.go`, `StreamResultsContinuous`)

The streaming goroutine runs a strictly sequential loop; it is modelled by
the trace of channel operations it performs.  `fetch k` is the result of
the `StreamResults` call at the `k`-th ticker tick.  Cancellation is not
modelled (no claim quantifies over it beyond the error/terminal paths). -/

/-- `compareOutputs`: `reflect.DeepEqual` on two job outputs. -/
def compareOutputs (a b : Option String) : Bool := a == b

/-- One observable action of the streaming goroutine: a job sent on the
update channel, or an error sent on the error channel. -/
inductive StreamEvent where
  | emit (j : Job)
  | errEv (e : GoErr)

/-- The streaming goroutine's loop.  It returns the list of events sent, in
order, and a flag that is `true` exactly when the goroutine returned — at
which point its two deferred `close` statements close both channels, once
each.  The fuel is the number of ticks observed; `false` means the loop was
still running after that many ticks. -/
def streamLoop (fetch : Nat → Except GoErr Job) :
    Nat → Nat → Option String → List StreamEvent × Bool
  | 0, _, _ => ([], false)
  | fuel + 1, k, lastOutput =>
    match fetch k with
    | .error e => ([.errEv e], true)
    | .ok job =>
      let outputChanged := !(compareOutputs lastOutput job.Output)
      if outputChanged then
        if IsJobTerminal job.Status then ([.emit job], true)
        else
          let r := streamLoop fetch fuel (k + 1) job.Output
          (.emit job :: r.1, r.2)
      else
        if IsJobTerminal job.Status then ([], true)
        else streamLoop fetch fuel (k + 1) lastOutput

/-- `StreamResultsContinuous`: the goroutine starts with `lastOutput` the
nil interface value. -/
def StreamResultsContinuousTrace (fetch : Nat → Except GoErr Job)
    (fuel : Nat) : List StreamEvent × Bool :=
  streamLoop fetch fuel 0 none

/-- The outputs of the jobs emitted in a trace, in emission order. -/
def emittedOutputs (tr : List StreamEvent) : List (Option String) :=
  tr.filterMap fun ev =>
    match ev with
    | .emit j => some j.Output
    | .errEv _ => none

/-- Modelled from the spec: the claim says the 429 fallback carries "the
Retry-After header hint if present and unknown otherwise", i.e. the hint is
read off the response's headers.  The Go pipeline never consults the header
(its header accessor is a stub), so this definition exists only to state
that claim for comparison. -/
def claimedRetryAfterHint (headers : List (String × String)) : String :=
  match headers.lookup "Retry-After" with
  | some v => v ++ " seconds"
  | none => "unknown"

/-! ## Concrete test fixtures used by witnesses -/

/-- A 429 response carrying a `Retry-After` header, with an unparsable body. -/
def resp429WithRetryAfter : HTTPResponse :=
  { statusCode := 429
    headers := [("Retry-After", "30")]
    body := { raw := "slow down", apiErrParse := none, simpleParse := none } }

/-- A client with all defaults (`MaxRetryAttempts = 3`). -/
def testClient : Client := defaultsClient "test-api-key-123456"

/-- A network on which every attempt fails at the transport level. -/
def alwaysNetworkFailure : Int → Except GoErr HTTPResponse :=
  fun _ => .error (.network "HTTP request failed" (some "connection refused"))

/-- A network answering 503, 503, then 200. -/
def seq503x2then200 : Int → Except GoErr HTTPResponse :=
  fun i =>
    if i = 0 then .ok { statusCode := 503 }
    else if i = 1 then .ok { statusCode := 503 }
    else .ok { statusCode := 200 }

/-- A job observed as CANCELLED while carrying a (server-side) error text. -/
def cancelledJobWithError : Job :=
  { ID := "j1", Status := "CANCELLED", Output := none, Error := "boom" }

/-- A status fetch that always reports `cancelledJobWithError`. -/
def cancelledFetch : Nat → Except GoErr Job :=
  fun _ => .ok cancelledJobWithError

/-- Jobs observed by the happy-path polling scenario. -/
def jobInQueue : Job := { ID := "j2", Status := "IN_QUEUE" }

def jobInProgress : Job := { ID := "j2", Status := "IN_PROGRESS" }

def jobCompleted : Job :=
  { ID := "j2", Status := "COMPLETED", Output := some "done" }

/-- A status fetch answering IN_QUEUE, IN_PROGRESS, COMPLETED. -/
def pollFetch : Nat → Except GoErr Job :=
  fun k =>
    if k = 0 then .ok jobInQueue
    else if k = 1 then .ok jobInProgress
    else .ok jobCompleted

/-- A COMPLETED job with no output (the nil interface), as fetched on the
first streaming tick. -/
def terminalNoOutputJob : Job := { ID := "j3", Status := "COMPLETED" }

/-- A stream fetch that reports `terminalNoOutputJob` immediately. -/
def terminalFetch : Nat → Except GoErr Job :=
  fun _ => .ok terminalNoOutputJob

/-- A COMPLETED job carrying an output. -/
def streamDoneJob : Job :=
  { ID := "j4", Status := "COMPLETED", Output := some "final" }

/-- A stream fetch that reports `streamDoneJob` immediately. -/
def streamDoneFetch : Nat → Except GoErr Job :=
  fun _ => .ok streamDoneJob

/-- A client whose 11-character key already has the masked shape. -/
def maskShapedClient : Client := defaultsClient "abcd***wxyz"

/-- A batch submission in which the submission at index 1 fails. -/
def batchRun : Nat → String → Except GoErr Job :=
  fun i s =>
    if i = 1 then .error (.network "HTTP request failed" (some "timeout"))
    else .ok { ID := s, Status := "IN_QUEUE" }

end Runpod

namespace Runpod

/-! ## Non-claim helper lemmas -/

/-- Any list is a prefix of itself (as the boolean `isPrefixOf`). -/
theorem isPrefixOf_self_eq_true (l : List Char) : l.isPrefixOf l = true := by
  induction l with
  | nil => rfl
  | cons a t ih => simp [List.isPrefixOf, ih]

/-- `goContainsList` finds the needle when the haystack ends with it. -/
theorem goContainsList_append_self (t : List Char) :
    ∀ l, goContainsList t (l ++ t) = true := by
  intro l
  induction l with
  | nil =>
    cases t with
    | nil => rfl
    | cons c ts => simp [goContainsList, isPrefixOf_self_eq_true]
  | cons c l ih => simp [goContainsList, ih]

/-- `strings.Contains (s ++ t) t` always holds. -/
theorem goContains_append_self (s t : String) : goContains (s ++ t) t = true := by
  cases s with
  | mk a =>
    cases t with
    | mk b =>
      show goContainsList b (a ++ b) = true
      exact goContainsList_append_self b a

/-- The polling loop against a fetch that never reports a terminal state
falls through to the deadline error. -/
theorem waitLoop_nonterminal (jobs : Nat → Except GoErr Job) (jobID : String)
    (mw : Int)
    (hnt : ∀ k, ∃ j, jobs k = .ok j ∧ IsJobTerminal j.Status = false) :
    ∀ (fuel : Nat) (k : Nat),
      (waitForJobCompletionLoop jobs jobID mw fuel k).1 =
        (none, some (.waitDeadline jobID mw)) := by
  intro fuel
  induction fuel with
  | zero => intro k; rfl
  | succ n ih =>
    intro k
    obtain ⟨j, hj, hterm⟩ := hnt k
    simp only [IsJobTerminal, List.any_cons, List.any_nil, Bool.or_eq_false_iff,
      beq_eq_false_iff_ne, ne_eq] at hterm
    obtain ⟨hc, hf, hca, ht, -⟩ := hterm
    by_cases hg : 5 * (k : Int) < mw
    · simp [waitForJobCompletionLoop, hg, hj, hc, hf, hca, ht, ih]
    · simp [waitForJobCompletionLoop, hg]

/-- Retry loop, all attempts failing with retryable errors: the loop burns
all its fuel and reports exhaustion with the most recent error. -/
theorem makeRequestLoop_all_retryable_errors (c : Client)
    (outcomes : Int → Except GoErr HTTPResponse) (errOf : Int → GoErr)
    (hout : ∀ i, outcomes i = .error (errOf i))
    (hretry : ∀ i, isRetryableError (errOf i) = true) :
    ∀ (fuel : Nat) (attempt : Int) (lastErr : Option GoErr), 0 < fuel →
      makeRequestLoop c outcomes fuel attempt lastErr =
        (.error (.exhausted (c.MaxRetryAttempts + 1)
          (some (errOf (attempt + fuel - 1)))), fuel) := by
  intro fuel
  induction fuel with
  | zero => intro attempt lastErr h; omega
  | succ n ih =>
    intro attempt lastErr _
    simp only [makeRequestLoop, hout attempt, hretry attempt, if_true]
    by_cases hn : n = 0
    · subst hn
      simp only [makeRequestLoop]
      have h1 : attempt + ((1 : Nat) : Int) - 1 = attempt := by push_cast; ring
      simp [h1]
    · rw [ih (attempt + 1) (some (errOf attempt)) (by omega)]
      have h1 : attempt + 1 + (n : Int) - 1 = attempt + ((n + 1 : Nat) : Int) - 1 := by
        push_cast; ring
      simp [h1]

/-- Retry loop, every attempt yielding a retryable HTTP status: the loop
retries while `attempt < MaxRetryAttempts` and returns the response of the
final attempt. -/
theorem makeRequestLoop_all_retryable_status (c : Client)
    (outcomes : Int → Except GoErr HTTPResponse) (respOf : Int → HTTPResponse)
    (hout : ∀ i, outcomes i = .ok (respOf i))
    (hretry : ∀ i, isRetryableHTTPStatus (respOf i).statusCode = true) :
    ∀ (fuel : Nat) (attempt : Int) (lastErr : Option GoErr),
      0 ≤ attempt → attempt + fuel = c.MaxRetryAttempts + 1 → 0 < fuel →
      makeRequestLoop c outcomes fuel attempt lastErr =
        (.ok (respOf c.MaxRetryAttempts), fuel) := by
  intro fuel
  induction fuel with
  | zero => intro attempt lastErr _ _ h; omega
  | succ n ih =>
    intro attempt lastErr h0 hsum _
    simp only [makeRequestLoop, hout attempt]
    by_cases hn : n = 0
    · subst hn
      have hA : attempt = c.MaxRetryAttempts := by omega
      have : decide (attempt < c.MaxRetryAttempts) = false := by
        simp [hA]
      simp [this, hA]
    · have hlt : attempt < c.MaxRetryAttempts := by omega
      have hd : decide (attempt < c.MaxRetryAttempts) = true := by
        simpa using hlt
      simp only [hretry attempt, hd, Bool.and_self, if_true]
      rw [ih (attempt + 1) (some (.httpRetryable (respOf attempt).statusCode))
        (by omega) (by omega) (by omega)]

/-- Characterisation of the keys on which the mask is a fixed point: the
three-character key "***" and 11-character keys whose middle three
characters are "***". -/
theorem maskChars_eq_self_iff (l : List Char) :
    maskChars l = l ↔
      l = ['*', '*', '*'] ∨
        (l.length = 11 ∧ (l.drop 4).take 3 = ['*', '*', '*']) := by
  unfold maskChars
  by_cases h : l.length ≤ 8
  · simp only [h, if_true]
    constructor
    · intro he
      exact Or.inl he.symm
    · rintro (he | ⟨h11, -⟩)
      · exact he.symm
      · exfalso; omega
  · simp only [h, if_false]
    push_neg at h
    constructor
    · intro he
      have hlen : l.length = 11 := by
        have hc := congrArg List.length he
        simp [List.length_take, List.length_drop] at hc
        omega
      refine Or.inr ⟨hlen, ?_⟩
      have h4 : (l.take 4).length = 4 := by
        simp [List.length_take]
        omega
      conv_lhs => rw [← he]
      rw [List.append_assoc, List.drop_left' h4,
        List.take_left' (show (['*', '*', '*'] : List Char).length = 3 from rfl)]
    · rintro (he | ⟨h11, hmid⟩)
      · exfalso
        rw [he] at h
        simp at h
      · have h7 : l.length - 4 = 7 := by omega
        rw [h7]
        have hd : l.drop 4 = ['*', '*', '*'] ++ l.drop 7 := by
          conv_lhs => rw [← List.take_append_drop 3 (l.drop 4)]
          rw [hmid, List.drop_drop]
        calc l.take 4 ++ ['*', '*', '*'] ++ l.drop 7
            = l.take 4 ++ (['*', '*', '*'] ++ l.drop 7) := by
              rw [List.append_assoc]
          _ = l.take 4 ++ l.drop 4 := by rw [← hd]
          _ = l := List.take_append_drop 4 l

/-- The submission loop in closed form: the successes are the inputs whose
submission succeeded, in order, and the errors are the per-index wrapped
failures, in order. -/
theorem submitLoop_eq {α : Type} (runAsync : Nat → α → Except GoErr Job) :
    ∀ (inputs : List α) (i : Nat),
      submitLoop runAsync i inputs =
        ((inputs.enumFrom i).filterMap fun p => (runAsync p.1 p.2).toOption,
         (inputs.enumFrom i).filterMap fun p =>
           match runAsync p.1 p.2 with
           | .error e =>
             some (GoErr.wrapped ("job " ++ toString p.1 ++ " failed") e)
           | .ok _ => none) := by
  intro inputs
  induction inputs with
  | nil => intro i; rfl
  | cons a rest ih =>
    intro i
    cases h : runAsync i a with
    | error e => simp [submitLoop, h, List.enumFrom, ih, Except.toOption]
    | ok j => simp [submitLoop, h, List.enumFrom, ih, Except.toOption]

/-! ## Claim theorems -/

/-- C1: For every endpoint, URL composition routes to exactly one of the
three documented targets: a `/v2/`-prefixed endpoint is appended to the
serverless base URL; an endpoint that names the job-queue host
`api.runpod.ai` (and is not `/v2/`-prefixed) is used verbatim; every other
endpoint is appended to the standard base URL. -/
theorem buildURL_routes_each_endpoint (c : Client) (e : String) :
    (goStartsWith e "/v2/" = true → buildURL c e = c.ServerlessBaseURL ++ e) ∧
    (goStartsWith e "/v2/" = false → goContains e "api.runpod.ai" = true →
      buildURL c e = e) ∧
    (goStartsWith e "/v2/" = false → goContains e "api.runpod.ai" = false →
      buildURL c e = c.BaseURL ++ e) := by
  refine ⟨fun h1 => ?_, fun h1 h2 => ?_, fun h1 h2 => ?_⟩
  · simp [buildURL, h1]
  · simp [buildURL, h1, h2]
  · simp [buildURL, h1, h2]

/-- Witness for C1 at concrete endpoints: a job endpoint, a full URL naming
the job-queue host, and a standard REST endpoint. -/
theorem buildURL_routes_each_endpoint_witness :
    buildURL (defaultsClient "k12345") "/v2/ep1/run" =
      "https://api.runpod.ai/v2" ++ "/v2/ep1/run" ∧
    buildURL (defaultsClient "k12345") "https://api.runpod.ai/v2/ep1/run" =
      "https://api.runpod.ai/v2/ep1/run" ∧
    buildURL (defaultsClient "k12345") "/pods" =
      "https://rest.runpod.io/v1" ++ "/pods" := by
  refine ⟨?_, ?_, ?_⟩
  · exact (buildURL_routes_each_endpoint (defaultsClient "k12345") "/v2/ep1/run").1
      (by decide)
  · exact (buildURL_routes_each_endpoint (defaultsClient "k12345")
      "https://api.runpod.ai/v2/ep1/run").2.1 (by decide) (by decide)
  · exact (buildURL_routes_each_endpoint (defaultsClient "k12345") "/pods").2.2
      (by decide) (by decide)

/-- C2: with max attempts `N ≥ 0` and a network that fails every attempt at
the transport level (always-retryable network errors), `makeRequest`
performs exactly `N + 1` attempts and returns the wrapped exhausted-retries
error carrying the last underlying error. -/
theorem makeRequest_transport_failures_exhaust_retries (c : Client)
    (outcomes : Int → Except GoErr HTTPResponse) (errOf : Int → GoErr)
    (hN : 0 ≤ c.MaxRetryAttempts)
    (hout : ∀ i, outcomes i = .error (errOf i))
    (hnet : ∀ i, ∃ m cause, errOf i = .network m cause) :
    makeRequest c outcomes =
      .error (.exhausted (c.MaxRetryAttempts + 1) (some (errOf c.MaxRetryAttempts))) ∧
    (makeRequestAttempts c outcomes : Int) = c.MaxRetryAttempts + 1 := by
  have hretry : ∀ i, isRetryableError (errOf i) = true := by
    intro i
    obtain ⟨m, cause, h⟩ := hnet i
    simp [h, isRetryableError]
  have h := makeRequestLoop_all_retryable_errors c outcomes errOf hout hretry
    (c.MaxRetryAttempts + 1).toNat 0 none (by omega)
  have harg : (0 : Int) + ((c.MaxRetryAttempts + 1).toNat : Int) - 1 =
      c.MaxRetryAttempts := by omega
  rw [harg] at h
  refine ⟨?_, ?_⟩
  · unfold makeRequest
    rw [h]
  · unfold makeRequestAttempts
    rw [h]
    omega

/-- Witness for C2: the default client (3 retries) against a network that
always fails makes 4 attempts and reports exhaustion after 4 attempts. -/
theorem makeRequest_transport_failures_exhaust_retries_witness :
    makeRequest testClient alwaysNetworkFailure =
      .error (.exhausted 4
        (some (.network "HTTP request failed" (some "connection refused")))) ∧
    makeRequestAttempts testClient alwaysNetworkFailure = 4 := by
  have h := makeRequest_transport_failures_exhaust_retries testClient
    alwaysNetworkFailure
    (fun _ => .network "HTTP request failed" (some "connection refused"))
    (by decide) (fun _ => rfl) (fun _ => ⟨_, _, rfl⟩)
  have hval : testClient.MaxRetryAttempts = 3 := rfl
  rw [hval] at h
  refine ⟨?_, ?_⟩
  · have h1 := h.1
    norm_num at h1
    exact h1
  · have h2 := h.2
    omega

/-- C3: the retry loop retries the statuses {500, 502, 503, 504, 429} only
while attempts remain, and any other status ends the loop on the attempt
that received it: (a) a first response whose status is not retryable is
returned after exactly one attempt regardless of the configured retries;
(b) the sequence 503, 503, 200 with max attempts ≥ 2 yields the 200
response after exactly 3 attempts; (c) when every attempt yields a
retryable status, the final attempt's response is returned after exactly
`N + 1` attempts (a retryable status on the last attempt is not retried). -/
theorem makeRequest_status_retry_policy :
    (∀ (c : Client) (outcomes : Int → Except GoErr HTTPResponse) (r : HTTPResponse),
      0 ≤ c.MaxRetryAttempts →
      outcomes 0 = .ok r →
      isRetryableHTTPStatus r.statusCode = false →
      makeRequest c outcomes = .ok r ∧ makeRequestAttempts c outcomes = 1) ∧
    (∀ (c : Client) (outcomes : Int → Except GoErr HTTPResponse)
      (r0 r1 r2 : HTTPResponse),
      2 ≤ c.MaxRetryAttempts →
      outcomes 0 = .ok r0 → r0.statusCode = 503 →
      outcomes 1 = .ok r1 → r1.statusCode = 503 →
      outcomes 2 = .ok r2 → r2.statusCode = 200 →
      makeRequest c outcomes = .ok r2 ∧ makeRequestAttempts c outcomes = 3) ∧
    (∀ (c : Client) (outcomes : Int → Except GoErr HTTPResponse)
      (respOf : Int → HTTPResponse),
      0 ≤ c.MaxRetryAttempts →
      (∀ i, outcomes i = .ok (respOf i)) →
      (∀ i, isRetryableHTTPStatus (respOf i).statusCode = true) →
      makeRequest c outcomes = .ok (respOf c.MaxRetryAttempts) ∧
        (makeRequestAttempts c outcomes : Int) = c.MaxRetryAttempts + 1) := by
  refine ⟨?_, ?_, ?_⟩
  · intro c outcomes r hN h0 hs
    have hk : (c.MaxRetryAttempts + 1).toNat =
        (c.MaxRetryAttempts + 1).toNat - 1 + 1 := by omega
    refine ⟨?_, ?_⟩
    · unfold makeRequest
      rw [hk]
      simp [makeRequestLoop, h0, hs]
    · unfold makeRequestAttempts
      rw [hk]
      simp [makeRequestLoop, h0, hs]
  · intro c outcomes r0 r1 r2 hN h0 hs0 h1 hs1 h2 hs2
    have hm : (c.MaxRetryAttempts + 1).toNat =
        (c.MaxRetryAttempts + 1).toNat - 3 + 3 := by omega
    have hr503 : isRetryableHTTPStatus 503 = true := by decide
    have hr200 : isRetryableHTTPStatus 200 = false := by decide
    have hd0 : decide ((0 : Int) < c.MaxRetryAttempts) = true := by
      simp only [decide_eq_true_eq]; omega
    have hd1 : decide ((1 : Int) < c.MaxRetryAttempts) = true := by
      simp only [decide_eq_true_eq]; omega
    refine ⟨?_, ?_⟩
    · unfold makeRequest
      rw [hm]
      simp [makeRequestLoop, h0, h1, h2, hs0, hs1, hs2, hr503, hr200, hd0, hd1]
    · unfold makeRequestAttempts
      rw [hm]
      simp [makeRequestLoop, h0, h1, h2, hs0, hs1, hs2, hr503, hr200, hd0, hd1]
  · intro c outcomes respOf hN hout hretry
    have h := makeRequestLoop_all_retryable_status c outcomes respOf hout hretry
      (c.MaxRetryAttempts + 1).toNat 0 none (by omega) (by omega) (by omega)
    refine ⟨?_, ?_⟩
    · unfold makeRequest
      rw [h]
    · unfold makeRequestAttempts
      rw [h]
      omega

/-- C4 counterexample: on a 429 response that carries `Retry-After: 30`,
the pipeline still returns a RateLimitError with hint "unknown", because
the header accessor is stubbed to return the empty string; the claim's
prediction for this input is the hint "30 seconds". -/
theorem parseErrorResponse_retry_after_header_ignored :
    handleResponse testClient resp429WithRetryAfter =
      .error (.rateLimit "rate limit exceeded" "unknown") ∧
    claimedRetryAfterHint resp429WithRetryAfter.headers = "30 seconds" ∧
    ("unknown" : String) ≠ "30 seconds" := by
  exact ⟨rfl, rfl, by decide⟩

/-- C4 (amended): for every response with status ≥ 400, decoding returns an
error, never success, chosen by the documented precedence — a structured
API error body with non-empty message wins; failing that, a simple
`{error|message}` body with non-empty message; failing both, the
status-code fallback, in which 401/403 give AuthError, 404 gives
APIError(404), 429 gives a RateLimitError whose retry-after hint is always
"unknown" (the header accessor is a stub, so a present `Retry-After`
header is never consulted), 500/502/503/504 give APIError(status, "server
error"), and any other status gives an APIError carrying the raw body
text. -/
theorem parseErrorResponse_precedence (c : Client) (resp : HTTPResponse)
    (hst : 400 ≤ resp.statusCode) :
    handleResponse c resp =
      .error (parseErrorResponse c resp.statusCode resp.body) ∧
    (∀ a, resp.body.apiErrParse = some a → a.Message ≠ "" →
      parseErrorResponse c resp.statusCode resp.body =
        .api { a with StatusCode := resp.statusCode }) ∧
    (∀ e m,
      (resp.body.apiErrParse = none ∨
        ∃ a, resp.body.apiErrParse = some a ∧ a.Message = "") →
      resp.body.simpleParse = some (e, m) →
      (if e = "" then m else e) ≠ "" →
      parseErrorResponse c resp.statusCode resp.body =
        .api { StatusCode := resp.statusCode,
               Message := if e = "" then m else e }) ∧
    ((resp.body.apiErrParse = none ∨
        ∃ a, resp.body.apiErrParse = some a ∧ a.Message = "") →
      (resp.body.simpleParse = none ∨
        ∃ e m, resp.body.simpleParse = some (e, m) ∧
          (if e = "" then m else e) = "") →
      ((resp.statusCode = 401 →
        parseErrorResponse c resp.statusCode resp.body =
          .auth "invalid or expired API key") ∧
       (resp.statusCode = 403 →
        parseErrorResponse c resp.statusCode resp.body =
          .auth "insufficient permissions") ∧
       (resp.statusCode = 404 →
        parseErrorResponse c resp.statusCode resp.body =
          .api { StatusCode := 404, Message := "resource not found" }) ∧
       (resp.statusCode = 429 →
        parseErrorResponse c resp.statusCode resp.body =
          .rateLimit "rate limit exceeded" "unknown") ∧
       (resp.statusCode = 500 ∨ resp.statusCode = 502 ∨
          resp.statusCode = 503 ∨ resp.statusCode = 504 →
        parseErrorResponse c resp.statusCode resp.body =
          .api { StatusCode := resp.statusCode, Message := "server error" }) ∧
       (resp.statusCode ≠ 401 → resp.statusCode ≠ 403 →
        resp.statusCode ≠ 404 → resp.statusCode ≠ 429 →
        resp.statusCode ≠ 500 → resp.statusCode ≠ 502 →
        resp.statusCode ≠ 503 → resp.statusCode ≠ 504 →
        parseErrorResponse c resp.statusCode resp.body =
          .api { StatusCode := resp.statusCode, Message := resp.body.raw }))) := by
  refine ⟨?_, ?_, ?_, ?_⟩
  · simp [handleResponse, hst]
  · intro a ha hm
    simp [parseErrorResponse, ha, hm]
  · intro e m hfail hsimple hmsg
    rcases hfail with h | ⟨a, ha, haMsg⟩
    · simp [parseErrorResponse, h, hsimple, hmsg]
    · simp [parseErrorResponse, ha, haMsg, hsimple, hmsg]
  · intro hfail hsfail
    have hP : parseErrorResponse c resp.statusCode resp.body =
        (if resp.statusCode = 401 then GoErr.auth "invalid or expired API key"
         else if resp.statusCode = 403 then GoErr.auth "insufficient permissions"
         else if resp.statusCode = 404 then
           GoErr.api { StatusCode := 404, Message := "resource not found" }
         else if resp.statusCode = 429 then
           GoErr.rateLimit "rate limit exceeded" "unknown"
         else if resp.statusCode = 500 ∨ resp.statusCode = 502 ∨
             resp.statusCode = 503 ∨ resp.statusCode = 504 then
           GoErr.api { StatusCode := resp.statusCode, Message := "server error" }
         else
           GoErr.api { StatusCode := resp.statusCode, Message := resp.body.raw }) := by
      rcases hfail with h | ⟨a, ha, haMsg⟩
      · rcases hsfail with h2 | ⟨e, m, h2, hm2⟩
        · simp [parseErrorResponse, h, h2, getResponseHeader]
        · simp [parseErrorResponse, h, h2, hm2, getResponseHeader]
      · rcases hsfail with h2 | ⟨e, m, h2, hm2⟩
        · simp [parseErrorResponse, ha, haMsg, h2, getResponseHeader]
        · simp [parseErrorResponse, ha, haMsg, h2, hm2, getResponseHeader]
    refine ⟨?_, ?_, ?_, ?_, ?_, ?_⟩
    · intro h401
      rw [hP, h401]
      norm_num
    · intro h403
      rw [hP, h403]
      norm_num
    · intro h404
      rw [hP, h404]
      norm_num
    · intro h429
      rw [hP, h429]
      norm_num
    · intro h5xx
      rcases h5xx with h | h | h | h <;> rw [hP, h] <;> norm_num
    · intro n1 n2 n3 n4 n5 n6 n7 n8
      rw [hP]
      simp [n1, n2, n3, n4, n5, n6, n7, n8]

/-- Witness for C4 (amended): the stubbed header accessor makes the 429
fallback produce the "unknown" hint even though the response carries a
`Retry-After` header. -/
theorem parseErrorResponse_precedence_witness :
    parseErrorResponse testClient 429 resp429WithRetryAfter.body =
      .rateLimit "rate limit exceeded" "unknown" := by
  have h := parseErrorResponse_precedence testClient resp429WithRetryAfter
    (by decide)
  exact (h.2.2.2 (Or.inl rfl) (Or.inl rfl)).2.2.2.1 rfl

/-- C5 counterexample: a job fetched as CANCELLED with error text "boom"
makes `WaitForJobCompletion` return the job with the error
"job j1 was cancelled", whose text does not embed the job's error text
"boom" — refuting the claim that on FAILED, CANCELLED, or TIMED_OUT the
returned error embeds the job's error text. -/
theorem waitForJobCompletion_cancelled_drops_error_text :
    WaitForJobCompletion cancelledFetch "j1" 60 =
      (some cancelledJobWithError, some (.jobCancelled "j1")) ∧
    cancelledJobWithError.Error = "boom" ∧
    waitErrText (.jobCancelled "j1") = "job j1 was cancelled" ∧
    goContains (waitErrText (.jobCancelled "j1")) "boom" = false := by
  exact ⟨rfl, rfl, rfl, rfl⟩

/-- C5 (amended): `WaitForJobCompletion` polls in a loop: on the status
sequence IN_QUEUE, IN_PROGRESS, COMPLETED it returns the COMPLETED job
after exactly 3 fetches; on FAILED it returns the job together with an
error embedding the job's error text, while on CANCELLED or TIMED_OUT it
returns the job together with an error naming the job id (but not the
job's error text); otherwise it sleeps the fixed 5-unit poll interval and
retries; a non-positive wait bound defaults to 10 minutes; and if the
deadline elapses without a terminal state, it returns a deadline-exceeded
error naming the job id and the elapsed bound. -/
theorem waitForJobCompletion_behavior :
    (∀ (jobs : Nat → Except GoErr Job) (jobID : String) (j0 j1 j2 : Job)
      (mw : Int),
      10 < mw →
      jobs 0 = .ok j0 → j0.Status = "IN_QUEUE" →
      jobs 1 = .ok j1 → j1.Status = "IN_PROGRESS" →
      jobs 2 = .ok j2 → j2.Status = "COMPLETED" →
      WaitForJobCompletion jobs jobID mw = (some j2, none) ∧
        waitPollCount jobs jobID mw = 3) ∧
    (∀ (jobs : Nat → Except GoErr Job) (jobID : String) (j : Job) (mw : Int),
      0 < mw → jobs 0 = .ok j →
      ((j.Status = "FAILED" →
        WaitForJobCompletion jobs jobID mw =
          (some j, some (.jobFailed jobID j.Error)) ∧
        goContains (waitErrText (.jobFailed jobID j.Error)) j.Error = true) ∧
       (j.Status = "CANCELLED" →
        WaitForJobCompletion jobs jobID mw =
          (some j, some (.jobCancelled jobID))) ∧
       (j.Status = "TIMED_OUT" →
        WaitForJobCompletion jobs jobID mw =
          (some j, some (.jobTimedOut jobID))))) ∧
    (∀ (jobs : Nat → Except GoErr Job) (jobID : String) (mw : Int),
      mw ≤ 0 →
      WaitForJobCompletion jobs jobID mw = WaitForJobCompletion jobs jobID 600) ∧
    (∀ (jobs : Nat → Except GoErr Job) (jobID : String) (mw : Int),
      0 < mw →
      (∀ k, ∃ j, jobs k = .ok j ∧ IsJobTerminal j.Status = false) →
      WaitForJobCompletion jobs jobID mw =
        (none, some (.waitDeadline jobID mw))) := by
  refine ⟨?_, ?_, ?_, ?_⟩
  · intro jobs jobID j0 j1 j2 mw hmw h0 hs0 h1 hs1 h2 hs2
    have hpos : ¬ (mw ≤ 0) := by omega
    have hfa : mw.toNat + 1 = mw.toNat - 2 + 1 + 1 + 1 := by omega
    have g0 : (0 : Int) < mw := by omega
    have g1 : (5 : Int) < mw := by omega
    have g2 : (10 : Int) < mw := by omega
    refine ⟨?_, ?_⟩
    · unfold WaitForJobCompletion
      simp only [hpos, if_false]
      rw [hfa]
      simp [waitForJobCompletionLoop, h0, h1, h2, hs0, hs1, hs2, g0, g1, g2]
    · unfold waitPollCount
      simp only [hpos, if_false]
      rw [hfa]
      simp [waitForJobCompletionLoop, h0, h1, h2, hs0, hs1, hs2, g0, g1, g2]
  · intro jobs jobID j mw hmw h0
    have hpos : ¬ (mw ≤ 0) := by omega
    have g0 : (0 : Int) < mw := by omega
    refine ⟨?_, ?_, ?_⟩
    · intro hs
      refine ⟨?_, ?_⟩
      · unfold WaitForJobCompletion
        simp [waitForJobCompletionLoop, hpos, h0, hs, g0]
      · show goContains ("job " ++ jobID ++ " failed: " ++ j.Error) j.Error = true
        exact goContains_append_self ("job " ++ jobID ++ " failed: ") j.Error
    · intro hs
      unfold WaitForJobCompletion
      simp [waitForJobCompletionLoop, hpos, h0, hs, g0]
    · intro hs
      unfold WaitForJobCompletion
      simp [waitForJobCompletionLoop, hpos, h0, hs, g0]
  · intro jobs jobID mw hmw
    norm_num [WaitForJobCompletion, hmw]
  · intro jobs jobID mw hmw hnt
    have hpos : ¬ (mw ≤ 0) := by omega
    unfold WaitForJobCompletion
    simp only [hpos, if_false]
    exact waitLoop_nonterminal jobs jobID mw hnt (mw.toNat + 1) 0

/-- C6 counterexample: a job that is already terminal on the first tick
with output equal to the last-emitted output (both are the nil interface)
is never emitted — the channels are closed with an empty trace — refuting
the claim that on every terminal tick the job is emitted before closing. -/
theorem streamContinuous_terminal_without_change_not_emitted :
    StreamResultsContinuousTrace terminalFetch 5 = ([], true) ∧
    IsJobTerminal terminalNoOutputJob.Status = true ∧
    StreamEvent.emit terminalNoOutputJob ∉
      (StreamResultsContinuousTrace terminalFetch 5).1 := by
  refine ⟨rfl, rfl, ?_⟩
  have h1 : (StreamResultsContinuousTrace terminalFetch 5).1 = [] := rfl
  rw [h1]
  exact List.not_mem_nil _

/-- C6 (amended): each tick compares the newly fetched output to the
last-emitted output by deep structural equality and emits only when they
differ — along any trace, consecutive emitted outputs are pairwise
distinct and the first emitted output differs from the initial value, so
two consecutive identical outputs produce no second emission; on a tick at
which the fetched job is terminal the job is emitted only if its output
changed, then both channels are closed exactly once and the task stops;
a fetch error at any tick is emitted on the error channel and ends the
task. -/
theorem streamContinuous_diff_and_close :
    (∀ (fetch : Nat → Except GoErr Job) (fuel k : Nat)
      (lastOutput : Option String),
      List.Chain' Ne
        (lastOutput :: emittedOutputs (streamLoop fetch fuel k lastOutput).1)) ∧
    (∀ (fetch : Nat → Except GoErr Job) (fuel k : Nat)
      (lastOutput : Option String) (job : Job),
      fetch k = .ok job → IsJobTerminal job.Status = true →
      streamLoop fetch (fuel + 1) k lastOutput =
        (if compareOutputs lastOutput job.Output then [] else [.emit job],
          true)) ∧
    (∀ (fetch : Nat → Except GoErr Job) (fuel k : Nat)
      (lastOutput : Option String) (e : GoErr),
      fetch k = .error e →
      streamLoop fetch (fuel + 1) k lastOutput = ([.errEv e], true)) := by
  refine ⟨?_, ?_, ?_⟩
  · intro fetch fuel
    induction fuel with
    | zero =>
      intro k lastOutput
      simp [streamLoop, emittedOutputs]
    | succ n ih =>
      intro k lastOutput
      cases hf : fetch k with
      | error e => simp [streamLoop, hf, emittedOutputs]
      | ok job =>
        cases hc : compareOutputs lastOutput job.Output with
        | true =>
          by_cases ht : IsJobTerminal job.Status
          · simp [streamLoop, hf, hc, ht, emittedOutputs]
          · simpa [streamLoop, hf, hc, ht] using ih (k + 1) lastOutput
        | false =>
          have hne : lastOutput ≠ job.Output := by
            simpa [compareOutputs] using hc
          by_cases ht : IsJobTerminal job.Status
          · simp [streamLoop, hf, hc, ht, emittedOutputs, hne]
          · have hrec := ih (k + 1) job.Output
            simp only [streamLoop, hf, hc, Bool.not_false, if_true, ht,
              if_false, emittedOutputs, List.filterMap_cons]
            simp only [emittedOutputs] at hrec
            exact List.chain'_cons.mpr ⟨hne, hrec⟩
  · intro fetch fuel k lastOutput job hf ht
    cases hc : compareOutputs lastOutput job.Output <;>
      simp [streamLoop, hf, ht, hc]
  · intro fetch fuel k lastOutput e hf
    simp [streamLoop, hf]

/-- Witness for C6 (amended): a first tick fetching a COMPLETED job whose
output differs from the initial nil emits that job once and closes. -/
theorem streamContinuous_diff_and_close_witness :
    streamLoop streamDoneFetch 3 0 none = ([.emit streamDoneJob], true) := by
  have h := streamContinuous_diff_and_close.2.1 streamDoneFetch 2 0 none
    streamDoneJob rfl rfl
  simpa [compareOutputs, streamDoneJob] using h

/-- C7: façade operations validate their required string arguments before
any request is built or network call is made — `GetJobStatus` with an empty
endpoint id (or empty job id) returns the naming ValidationError no matter
how the network would behave — and the validation helpers are pure:
required-string and required-sequence reject exactly the empty values, and
the positive-integer and positive-float checks reject exactly the values
≤ 0, carrying the offending value. -/
theorem validation_before_network :
    (∀ (net : String → Except GoErr Job) (jobID : String),
      GetJobStatus net "" jobID =
        .error (.validation "endpointID" "cannot be empty" none)) ∧
    (∀ (net : String → Except GoErr Job) (endpointID : String),
      endpointID ≠ "" →
      GetJobStatus net endpointID "" =
        .error (.validation "jobID" "cannot be empty" none)) ∧
    (∀ (fieldName s : String),
      validateRequired fieldName (.vstr s) =
        if s = "" then some (.validation fieldName "cannot be empty" none)
        else none) ∧
    (∀ (fieldName : String) (l : List String),
      validateRequired fieldName (.vstrList l) =
        if l = [] then some (.validation fieldName "cannot be empty" none)
        else none) ∧
    (∀ fieldName : String,
      validateRequired fieldName .vnil =
        some (.validation fieldName "is required" none)) ∧
    (∀ (fieldName : String) (v : Int),
      validatePositive fieldName v =
        if v ≤ 0 then
          some (.validation fieldName "must be positive" (some (.vInt v)))
        else none) ∧
    (∀ (fieldName : String) (q : Rat),
      validatePositiveFloat fieldName q =
        if q ≤ 0 then
          some (.validation fieldName "must be positive" (some (.vFloat q)))
        else none) := by
  refine ⟨?_, ?_, fun _ _ => rfl, fun _ _ => rfl, fun _ => rfl,
    fun _ _ => rfl, fun _ _ => rfl⟩
  · intro net jobID
    simp [GetJobStatus, validateRequired]
  · intro net endpointID h
    simp [GetJobStatus, validateRequired, h]

/-- Witness for C7: with an endpoint id present and an empty job id, the
jobID ValidationError is returned on a network that would always fail. -/
theorem validation_before_network_witness :
    GetJobStatus (fun _ => .error (.network "unreachable" none)) "ep1" "" =
      .error (.validation "jobID" "cannot be empty" none) := by
  exact validation_before_network.2.1
    (fun _ => .error (.network "unreachable" none)) "ep1" (by decide)

/-- C8 counterexample: for the 11-character key "abcd***wxyz" the masked
accessor returns the stored key itself, refuting the claim that the masked
form is never equal to the stored key (and that the accessor never returns
the full raw key). -/
theorem getAPIKey_can_equal_stored_key :
    GetAPIKey maskShapedClient = "abcd***wxyz" ∧
    maskShapedClient.APIKey = "abcd***wxyz" ∧
    GetAPIKey maskShapedClient = maskShapedClient.APIKey := by
  exact ⟨rfl, rfl, rfl⟩

/-- C8 (amended): the masked accessor returns "***" for keys of length at
most 8 and first-four ++ "***" ++ last-four for longer keys; the result
equals the stored key exactly when the key already has the masked shape —
the key "***" itself, or an 11-character key whose middle three characters
are "***" — and otherwise never reveals the full raw key. -/
theorem getAPIKey_masking (c : Client) :
    (c.APIKey.length ≤ 8 → GetAPIKey c = "***") ∧
    (8 < c.APIKey.length →
      (GetAPIKey c).data =
        c.APIKey.data.take 4 ++ ['*', '*', '*'] ++
          c.APIKey.data.drop (c.APIKey.data.length - 4)) ∧
    (GetAPIKey c = c.APIKey ↔
      c.APIKey = "***" ∨
        (c.APIKey.length = 11 ∧
          (c.APIKey.data.drop 4).take 3 = ['*', '*', '*'])) := by
  have hlen : c.APIKey.length = c.APIKey.data.length := rfl
  refine ⟨?_, ?_, ?_⟩
  · intro h
    show (⟨maskChars c.APIKey.data⟩ : String) = "***"
    unfold maskChars
    rw [if_pos (show c.APIKey.data.length ≤ 8 from h)]
  · intro h
    rw [hlen] at h
    have h8 : ¬ (c.APIKey.data.length ≤ 8) := by omega
    show maskChars c.APIKey.data = _
    unfold maskChars
    rw [if_neg h8]
  · have hstar : (c.APIKey = "***") ↔ c.APIKey.data = ['*', '*', '*'] := by
      rw [String.ext_iff]
    have hmask : (GetAPIKey c = c.APIKey) ↔
        maskChars c.APIKey.data = c.APIKey.data := by
      rw [String.ext_iff]
      exact Iff.rfl
    rw [hmask, hlen, hstar, maskChars_eq_self_iff]

/-- Witness for C8 (amended): a short key masks to "***" and a long
ordinary key masks to first-four ++ "***" ++ last-four, different from the
key. -/
theorem getAPIKey_masking_witness :
    GetAPIKey (defaultsClient "short") = "***" ∧
    (GetAPIKey (defaultsClient "sk-live-4242424242")).data =
      ("sk-live-4242424242".data.take 4 ++ ['*', '*', '*'] ++
        "sk-live-4242424242".data.drop ("sk-live-4242424242".data.length - 4)) ∧
    ¬ (GetAPIKey (defaultsClient "sk-live-4242424242") =
        (defaultsClient "sk-live-4242424242").APIKey) := by
  refine ⟨?_, ?_, ?_⟩
  · exact (getAPIKey_masking (defaultsClient "short")).1 (by decide)
  · exact (getAPIKey_masking (defaultsClient "sk-live-4242424242")).2.1 (by decide)
  · intro h
    have h2 := (getAPIKey_masking (defaultsClient "sk-live-4242424242")).2.2.mp h
    revert h2
    decide

/-- Witness for C5 (amended): the IN_QUEUE, IN_PROGRESS, COMPLETED fetch
sequence with the default 600 s bound returns the COMPLETED job after
exactly 3 fetches. -/
theorem waitForJobCompletion_behavior_witness :
    WaitForJobCompletion pollFetch "j2" 600 = (some jobCompleted, none) ∧
    waitPollCount pollFetch "j2" 600 = 3 := by
  exact waitForJobCompletion_behavior.1 pollFetch "j2" jobInQueue jobInProgress
    jobCompleted 600 (by norm_num) rfl rfl rfl rfl rfl rfl

/-- C9: constructing a client panics exactly when the API key is empty
(`none` models the panic); for any non-empty key and any option list,
construction returns the documented defaults with the options applied in
order, by left fold. -/
theorem newClient_panics_iff_empty_key (apiKey : String)
    (opts : List ClientOption) :
    (NewClient apiKey opts = none ↔ apiKey = "") ∧
    (apiKey ≠ "" →
      NewClient apiKey opts =
        some (opts.foldl (fun c opt => opt c) (defaultsClient apiKey))) ∧
    (defaultsClient apiKey).APIKey = apiKey ∧
    (defaultsClient apiKey).BaseURL = "https://rest.runpod.io/v1" ∧
    (defaultsClient apiKey).ServerlessBaseURL = "https://api.runpod.ai/v2" ∧
    (defaultsClient apiKey).httpTimeout = 30 ∧
    (defaultsClient apiKey).UserAgent = "runpod-go/1.0.0" ∧
    (defaultsClient apiKey).Debug = false ∧
    (defaultsClient apiKey).MaxRetryAttempts = 3 ∧
    (defaultsClient apiKey).RetryDelay = 1 := by
  refine ⟨⟨?_, ?_⟩, ?_, rfl, rfl, rfl, rfl, rfl, rfl, rfl, rfl⟩
  · intro h
    by_contra hne
    simp [NewClient, hne] at h
  · intro h
    simp [NewClient, h]
  · intro h
    simp [NewClient, h]

/-- Witness for C9: the empty key is rejected; a non-empty key with two
options yields the defaults with both options applied in order. -/
theorem newClient_panics_iff_empty_key_witness :
    NewClient "" [] = none ∧
    NewClient "k9" [WithDebug true, WithMaxRetryAttempts 5] =
      some { defaultsClient "k9" with Debug := true, MaxRetryAttempts := 5 } := by
  refine ⟨?_, ?_⟩
  · exact (newClient_panics_iff_empty_key "" []).1.mpr rfl
  · have h := (newClient_panics_iff_empty_key "k9"
      [WithDebug true, WithMaxRetryAttempts 5]).2.1 (by decide)
    rw [h]
    rfl

/-- C10: `SubmitMultipleJobs` is not atomic: an empty input list yields a
ValidationError without consulting the network; otherwise each input is
submitted independently in order, a failed submission is skipped rather
than aborting the batch, and the result pairs the successfully submitted
jobs, in order, with `none` when all succeeded and otherwise with an error
reporting how many of the N submissions failed. -/
theorem submitMultipleJobs_not_atomic :
    (∀ (α : Type) (runAsync : Nat → α → Except GoErr Job)
      (endpointID : String),
      endpointID ≠ "" →
      SubmitMultipleJobs runAsync endpointID ([] : List α) =
        ([], some (.validation "inputs" "cannot be empty" none))) ∧
    (∀ (α : Type) (runAsync : Nat → α → Except GoErr Job)
      (endpointID : String) (inputs : List α),
      endpointID ≠ "" → inputs ≠ [] →
      SubmitMultipleJobs runAsync endpointID inputs =
        (inputs.enum.filterMap fun p => (runAsync p.1 p.2).toOption,
          let errs := inputs.enum.filterMap fun p =>
            match runAsync p.1 p.2 with
            | .error e =>
              some (GoErr.wrapped ("job " ++ toString p.1 ++ " failed") e)
            | .ok _ => none
          if errs.length = 0 then none
          else some (.batchSubmit errs.length inputs.length errs))) := by
  refine ⟨?_, ?_⟩
  · intro α runAsync endpointID h
    simp [SubmitMultipleJobs, validateRequired, h]
  · intro α runAsync endpointID inputs h hne
    have hlen0 : ¬ (inputs.length = 0) := by
      simpa [List.length_eq_zero] using hne
    have hloop := submitLoop_eq runAsync inputs 0
    simp only [SubmitMultipleJobs, validateRequired, h, if_neg h, if_neg hlen0,
      hloop, List.enum]
    by_cases he :
        ((inputs.enumFrom 0).filterMap fun p =>
          match runAsync p.1 p.2 with
          | .error e =>
            some (GoErr.wrapped ("job " ++ toString p.1 ++ " failed") e)
          | .ok _ => none).length = 0
    · simp [he]
    · simp [he, Nat.pos_iff_ne_zero]

/-- Witness for C10: submitting three inputs where the middle submission
fails returns the first and third jobs and an error counting 1 failure out
of 3. -/
theorem submitMultipleJobs_not_atomic_witness :
    SubmitMultipleJobs batchRun "ep1" ["a", "b", "c"] =
      ([{ ID := "a", Status := "IN_QUEUE" }, { ID := "c", Status := "IN_QUEUE" }],
        some (.batchSubmit 1 3
          [.wrapped "job 1 failed"
            (.network "HTTP request failed" (some "timeout"))])) := by
  have h := submitMultipleJobs_not_atomic.2 String batchRun "ep1" ["a", "b", "c"]
    (by decide) (by decide)
  rw [h]
  rfl

/-- Witness for C3: the default client (3 retries) against the
503, 503, 200 network returns the 200 response after exactly 3 attempts. -/
theorem makeRequest_status_retry_policy_witness :
    makeRequest testClient seq503x2then200 = .ok { statusCode := 200 } ∧
    makeRequestAttempts testClient seq503x2then200 = 3 := by
  exact makeRequest_status_retry_policy.2.1 testClient seq503x2then200
    { statusCode := 503 } { statusCode := 503 } { statusCode := 200 }
    (by decide) rfl rfl rfl rfl rfl rfl

end Runpod
